import Mathlib

/-!
Verification of the Acorn Pups Cognito post-confirmation user-creation
pipeline: a shallow embedding of the post-confirmation Lambda handler
(the Entry Handler, with its record construction and retry-queue handoff)
and of the retry-processor Lambda (the Retry Worker), together with
theorems settling the specification's claims about them.

External services (DynamoDB, SQS, CloudWatch, SNS) are modelled as
oracles: each outcome of an external call is supplied as a function of
the call's arguments, so theorems quantifying over the oracle cover
every combination of success and failure of the external world.
Side effects are recorded as explicit lists of the attempted calls'
arguments (metrics, queue sends, admin alerts).  JavaScript exceptions
are modelled with `Except JsError`; nondeterministic inputs
(`randomUUID`, `new Date()`) are explicit parameters, one per call site.
-/

/-- A JavaScript `Error`: a `name` and a `message`. -/
structure JsError where
  name : String
  message : String
deriving DecidableEq

/-- Cognito user attributes carried by the trigger event
(`event.request.userAttributes`).  Optional attributes may be absent
(`none`); JavaScript falsiness of the empty string is handled by
`jsOrString` / `jsOrNull` below. -/
structure UserAttributes where
  email : String
  name : Option String
  phone_number : Option String
deriving DecidableEq

/-- The `request` field of the post-confirmation trigger event. -/
structure TriggerRequest where
  userAttributes : UserAttributes
deriving DecidableEq

/-- The post-confirmation trigger event
(`PostConfirmationTriggerEvent`): the fields the handler reads. -/
structure TriggerEvent where
  request : TriggerRequest
  userName : String
  triggerSource : String
  userPoolId : String
  region : String
deriving DecidableEq

/-- The DynamoDB user record built by the handler (the `userRecord`
object literal of the post-confirmation Lambda). -/
structure UserRecord where
  PK : String
  SK : String
  user_id : String
  email : String
  cognito_sub : String
  full_name : String
  phone : Option String
  timezone : String
  created_at : String
  updated_at : String
  last_login : Option String
  is_active : Bool
  push_notifications : Bool
  preferred_language : String
  sound_alerts : Bool
  vibration_alerts : Bool
deriving DecidableEq

/-- The retry envelope (`UserCreationPayload`): the message body carried
on the primary retry queue. -/
structure RetryPayload where
  userRecord : UserRecord
  originalEvent : TriggerEvent
  attemptCount : Nat
  firstAttemptTimestamp : String
  lastError : Option String
deriving DecidableEq

/-- The escalation payload (`manualPayload`): the retry envelope spread
together with the terminal-failure marker and final-failure timestamp. -/
structure ManualPayload where
  userRecord : UserRecord
  originalEvent : TriggerEvent
  attemptCount : Nat
  firstAttemptTimestamp : String
  lastError : Option String
  finalFailureTimestamp : String
  requiresManualIntervention : Bool
deriving DecidableEq

/-- A CloudWatch metric datum as attempted by `publishMetric`
(namespace is fixed; the `Timestamp` field is a clock read that no
claim depends on and is omitted). -/
structure Metric where
  name : String
  value : Nat
  dimensions : List (String × String)
deriving DecidableEq

/-- An SQS `SendMessageCommand` attempted by the pipeline: either a
retry-queue send (with a `DelaySeconds`) or a manual-intervention-queue
send. -/
inductive QueueSend where
  | retry (queueUrl : String) (payload : RetryPayload) (delaySeconds : Nat)
  | manual (queueUrl : String) (payload : ManualPayload)
deriving DecidableEq

/-- An SNS publish attempted by `sendAdminAlert` (subject as actually
sent, including the `[Acorn Pups]` prefix). -/
structure Alert where
  subject : String
  message : String
deriving DecidableEq

/-- The observable side effects of a run: every attempted external call
with its arguments, in order, whether or not the call succeeded. -/
structure Effects where
  metrics : List Metric
  queueSends : List QueueSend
  alerts : List Alert
deriving DecidableEq

def Effects.empty : Effects := ⟨[], [], []⟩

def Effects.append (a b : Effects) : Effects :=
  ⟨a.metrics ++ b.metrics, a.queueSends ++ b.queueSends, a.alerts ++ b.alerts⟩

instance : Append Effects := ⟨Effects.append⟩

/-- JavaScript `a || b` on a possibly-absent string: `undefined` and the
empty string are falsy. -/
def jsOrString : Option String → String → String
  | none, d => d
  | some s, d => if s = "" then d else s

/-- JavaScript `a || null` on a possibly-absent string. -/
def jsOrNull : Option String → Option String
  | none => none
  | some s => if s = "" then none else some s

/-- JavaScript `error.name || 'Unknown'`. -/
def jsErrorName (e : JsError) : String :=
  if e.name = "" then "Unknown" else e.name

/-- The user-record construction of the post-confirmation handler
(`userRecord` object literal): `uuid` is the value drawn from
`randomUUID()` and `now` the ISO timestamp captured once and reused for
both `created_at` and `updated_at`.  The same block is repeated verbatim
in `sendToRetryQueue`'s reconstruction path, which this embedding models
by calling this definition with that path's own fresh `uuid`/`now`. -/
def buildUserRecord (attrs : UserAttributes) (cognitoSub uuid now : String) : UserRecord :=
  let userId := "usr_" ++ uuid
  { PK := "USER#" ++ userId
    SK := "PROFILE"
    user_id := userId
    email := attrs.email
    cognito_sub := cognitoSub
    full_name := jsOrString attrs.name attrs.email
    phone := jsOrNull attrs.phone_number
    timezone := "America/Los_Angeles"
    created_at := now
    updated_at := now
    last_login := none
    is_active := true
    push_notifications := true
    preferred_language := "en"
    sound_alerts := true
    vibration_alerts := true }

/-! ## Entry Handler (post-confirmation Lambda) -/

/-- Environment and external-world oracle of one Entry Handler
invocation.  `put`, `sqsSend` and `cw` give the outcome of the
corresponding AWS call as a function of its arguments; `uuid` / `now`
are the values drawn at the handler's `randomUUID()` / `new Date()`
call sites and `uuid2` / `now2` / `nowRetry` those of the call sites
inside `sendToRetryQueue` (record reconstruction and
`firstAttemptTimestamp`). -/
structure EntryCtx where
  usersTableName : Option String
  primaryRetryQueueUrl : Option String
  uuid : String
  now : String
  uuid2 : String
  now2 : String
  nowRetry : String
  put : String → UserRecord → Except JsError Unit
  sqsSend : String → RetryPayload → Nat → Except JsError Unit
  cw : Metric → Except JsError Unit

/-- `publishMetric` of the post-confirmation Lambda: attempts a
CloudWatch put and swallows any error (`catch` only logs), so it never
throws; the attempt is recorded either way. -/
def publishMetricE (ctx : EntryCtx) (name : String) (value : Nat)
    (dimensions : List (String × String)) : Except JsError Unit × Effects :=
  match ctx.cw ⟨name, value, dimensions⟩ with
  | .ok _ => (.ok (), ⟨[⟨name, value, dimensions⟩], [], []⟩)
  | .error _ => (.ok (), ⟨[⟨name, value, dimensions⟩], [], []⟩)

/-- `sendToRetryQueue` of the post-confirmation Lambda.  The whole body
is wrapped in try/catch: an unconfigured queue URL only logs and
returns; a throwing SQS send is caught and answered with the critical
`UserCreationRetryQueueSendFailure` metric.  When no `userRecord` is
passed, the record is reconstructed (the source repeats the
`userRecord` literal verbatim; modelled by `buildUserRecord` with this
path's own `uuid2`/`now2`). -/
def sendToRetryQueue (ctx : EntryCtx) (originalEvent : TriggerEvent)
    (error : JsError) (userRecord : Option UserRecord) :
    Except JsError Unit × Effects :=
  match ctx.primaryRetryQueueUrl with
  | none => (.ok (), Effects.empty)
  | some url =>
    let record :=
      match userRecord with
      | some r => r
      | none =>
        buildUserRecord originalEvent.request.userAttributes
          originalEvent.userName ctx.uuid2 ctx.now2
    let retryPayload : RetryPayload :=
      { userRecord := record
        originalEvent := originalEvent
        attemptCount := 1
        firstAttemptTimestamp := ctx.nowRetry
        lastError := some error.message }
    let sendEff : Effects := ⟨[], [.retry url retryPayload 30], []⟩
    match ctx.sqsSend url retryPayload 30 with
    | .ok _ =>
      let m := publishMetricE ctx "UserCreationSentToRetryQueue" 1 []
      (.ok (), sendEff ++ m.2)
    | .error _ =>
      let m := publishMetricE ctx "UserCreationRetryQueueSendFailure" 1 []
      (.ok (), sendEff ++ m.2)

/-- The post-confirmation Lambda `handler` (the Entry Handler).  The
missing-table-name branch hands off to the retry queue and returns the
event; a failing DynamoDB put emits the immediate-failure metric and
hands off; every branch ends in `return event` (the outer catch cannot
fire in the embedding because every inner operation is total or
handled, exactly as in the source where every awaited helper swallows
its own errors). -/
def entryHandler (ctx : EntryCtx) (event : TriggerEvent) :
    Except JsError TriggerEvent × Effects :=
  match ctx.usersTableName with
  | none =>
    let s := sendToRetryQueue ctx event
      ⟨"Error", "Missing USERS_TABLE_NAME environment variable"⟩ none
    (.ok event, s.2)
  | some tableName =>
    let userRecord :=
      buildUserRecord event.request.userAttributes event.userName ctx.uuid ctx.now
    match ctx.put tableName userRecord with
    | .ok _ =>
      let m := publishMetricE ctx "UserCreationSuccess" 1 []
      (.ok event, m.2)
    | .error dynamoError =>
      let m := publishMetricE ctx "UserCreationImmediateFailure" 1
        [("ErrorType", jsErrorName dynamoError)]
      let s := sendToRetryQueue ctx event dynamoError (some userRecord)
      (.ok event, m.2 ++ s.2)

/-! ## Retry Worker (retry-processor Lambda) -/

/-- Environment variables of the retry-processor Lambda
(`MAX_RETRY_ATTEMPTS` is `parseInt(process.env.MAX_RETRY_ATTEMPTS || '3')`,
modelled as a `Nat`). -/
structure RetryEnv where
  usersTableName : String
  manualInterventionQueueUrl : String
  adminAlertTopicArn : String
  maxRetryAttempts : Nat
  primaryRetryQueueUrl : String

/-- External-world oracle of one retry-processor invocation: outcomes
of the DynamoDB put (`tableName`, `item`), SQS send, CloudWatch put and
SNS publish, each as a function of the call's arguments; `now` is the
value of the `new Date().toISOString()` read that stamps
`finalFailureTimestamp`. -/
structure RetryExt where
  put : String → UserRecord → Except JsError Unit
  sqsSend : QueueSend → Except JsError Unit
  cw : List Metric → Except JsError Unit
  sns : String → String → String → Except JsError Unit
  now : String

/-- `publishMetric` of the retry-processor Lambda: same
swallow-all-errors shape as the Entry Handler's. -/
def publishMetricW (ext : RetryExt) (name : String) (value : Nat)
    (dimensions : List (String × String)) : Except JsError Unit × Effects :=
  match ext.cw [⟨name, value, dimensions⟩] with
  | .ok _ => (.ok (), ⟨[⟨name, value, dimensions⟩], [], []⟩)
  | .error _ => (.ok (), ⟨[⟨name, value, dimensions⟩], [], []⟩)

/-- `sendAdminAlert`: an SNS publish with the `[Acorn Pups]` subject
prefix whose try/catch swallows any failure; the attempt is recorded
either way. -/
def sendAdminAlert (ext : RetryExt) (topicArn subject message : String) :
    Except JsError Unit × Effects :=
  match ext.sns topicArn ("[Acorn Pups] " ++ subject) message with
  | .ok _ => (.ok (), ⟨[], [], [⟨"[Acorn Pups] " ++ subject, message⟩]⟩)
  | .error _ => (.ok (), ⟨[], [], [⟨"[Acorn Pups] " ++ subject, message⟩]⟩)

/-- `publishBatchMetrics`: one CloudWatch put with the two batch
counters, errors swallowed. -/
def publishBatchMetrics (ext : RetryExt) (successful failed : Nat) :
    Except JsError Unit × Effects :=
  let data : List Metric :=
    [⟨"RetryBatchSuccessful", successful, []⟩, ⟨"RetryBatchFailed", failed, []⟩]
  match ext.cw data with
  | .ok _ => (.ok (), ⟨data, [], []⟩)
  | .error _ => (.ok (), ⟨data, [], []⟩)

/-- The error thrown by `JSON.parse` on an invalid message body
(a `SyntaxError`; the exact message text is environment-dependent). -/
def jsonParseError : JsError := ⟨"SyntaxError", "Unexpected token in JSON"⟩

/-- The exponential-backoff delay of `handleRetryFailure`
(`Math.min(300, Math.pow(2, newAttemptCount) * 30)`). -/
def retryDelaySeconds (newAttemptCount : Nat) : Nat :=
  min 300 (2 ^ newAttemptCount * 30)

/-- Message body of the recovery admin alert. -/
def recoveryAlertMessage (payload : RetryPayload) : String :=
  "User creation succeeded on retry attempt " ++ toString payload.attemptCount ++
  " for user " ++ payload.userRecord.user_id ++
  ". Original failure time: " ++ payload.firstAttemptTimestamp

/-- Message body of the manual-intervention admin alert. -/
def manualAlertMessage (env : RetryEnv) (payload : RetryPayload) (error : JsError) : String :=
  "User creation failed after " ++ toString env.maxRetryAttempts ++
  " retry attempts for user " ++ payload.userRecord.user_id ++ ". \n" ++
  "        Original attempt: " ++ payload.firstAttemptTimestamp ++ "\n" ++
  "        Final error: " ++ error.message ++ "\n        \n" ++
  "        Please check the manual intervention queue for details."

/-- Message body of the critical alert raised when the failure handling
itself fails. -/
def criticalAlertMessage (error handlingError : JsError) : String :=
  "Failed to handle retry failure properly. This requires immediate attention.\n" ++
  "      Original error: " ++ error.message ++ "\n" ++
  "      Handling error: " ++ handlingError.message

/-- `handleRetryFailure` of the retry-processor Lambda.  `body` is the
result of `JSON.parse(record.body)` (`none` = the parse throws, which
lands in this function's own catch).  Within budget
(`newAttemptCount <= MAX_RETRY_ATTEMPTS`) the payload is re-enqueued on
the primary retry queue with the incremented attempt count, new last
error and backoff delay; past budget the spread payload plus
`finalFailureTimestamp` and `requiresManualIntervention := true` is sent
to the manual-intervention queue, followed by the metric and the admin
alert.  A throw inside the try (an SQS send) falls to the catch, which
sends the critical alert and never rethrows. -/
def handleRetryFailure (env : RetryEnv) (ext : RetryExt)
    (body : Option RetryPayload) (error : JsError) :
    Except JsError Unit × Effects :=
  match body with
  | none =>
    let a := sendAdminAlert ext env.adminAlertTopicArn
      "Critical: Retry Failure Handling Error"
      (criticalAlertMessage error jsonParseError)
    (.ok (), a.2)
  | some payload =>
    let newAttemptCount := payload.attemptCount + 1
    let m := publishMetricW ext "UserCreationRetryFailure" 1
      [("AttemptCount", toString payload.attemptCount),
       ("ErrorType", jsErrorName error)]
    if newAttemptCount ≤ env.maxRetryAttempts then
      let updatedPayload : RetryPayload :=
        { payload with
          attemptCount := newAttemptCount
          lastError := some error.message }
      let delaySeconds := retryDelaySeconds newAttemptCount
      let send := QueueSend.retry env.primaryRetryQueueUrl updatedPayload delaySeconds
      let sendEff : Effects := ⟨[], [send], []⟩
      match ext.sqsSend send with
      | .ok _ => (.ok (), m.2 ++ sendEff)
      | .error handlingError =>
        let a := sendAdminAlert ext env.adminAlertTopicArn
          "Critical: Retry Failure Handling Error"
          (criticalAlertMessage error handlingError)
        (.ok (), m.2 ++ sendEff ++ a.2)
    else
      let manualPayload : ManualPayload :=
        { userRecord := payload.userRecord
          originalEvent := payload.originalEvent
          attemptCount := payload.attemptCount
          firstAttemptTimestamp := payload.firstAttemptTimestamp
          lastError := some error.message
          finalFailureTimestamp := ext.now
          requiresManualIntervention := true }
      let send := QueueSend.manual env.manualInterventionQueueUrl manualPayload
      let sendEff : Effects := ⟨[], [send], []⟩
      match ext.sqsSend send with
      | .ok _ =>
        let m2 := publishMetricW ext "UserCreationManualInterventionRequired" 1 []
        let a := sendAdminAlert ext env.adminAlertTopicArn
          "User Creation Requires Manual Intervention"
          (manualAlertMessage env payload error)
        (.ok (), m.2 ++ sendEff ++ m2.2 ++ a.2)
      | .error handlingError =>
        let a := sendAdminAlert ext env.adminAlertTopicArn
          "Critical: Retry Failure Handling Error"
          (criticalAlertMessage error handlingError)
        (.ok (), m.2 ++ sendEff ++ a.2)

/-- `processRetryRecord`: parse the body (a failing parse throws into
the catch, which re-enters the failure handler with the same body);
attempt the conditional DynamoDB put; on success emit the retry-success
metric and, when `attemptCount > 1`, the recovery admin alert; on any
thrown error delegate to `handleRetryFailure`. -/
def processRetryRecord (env : RetryEnv) (ext : RetryExt)
    (body : Option RetryPayload) : Except JsError Unit × Effects :=
  match body with
  | none => handleRetryFailure env ext none jsonParseError
  | some payload =>
    match ext.put env.usersTableName payload.userRecord with
    | .ok _ =>
      let m := publishMetricW ext "UserCreationRetrySuccess" 1
        [("AttemptCount", toString payload.attemptCount)]
      if payload.attemptCount > 1 then
        let a := sendAdminAlert ext env.adminAlertTopicArn
          "User Creation Retry Success" (recoveryAlertMessage payload)
        (.ok (), m.2 ++ a.2)
      else
        (.ok (), m.2)
    | .error error => handleRetryFailure env ext (some payload) error

/-- The retry-processor Lambda `handler` (the Retry Worker):
`Promise.allSettled` over the batch (every record processed
independently, no fail-fast), then the batch metrics; the handler
itself never rejects. -/
def retryHandler (env : RetryEnv) (ext : RetryExt)
    (records : List (Option RetryPayload)) : Except JsError Unit × Effects :=
  let results := records.map (processRetryRecord env ext)
  let successful := (results.filter (fun r => r.1.toBool)).length
  let failed := (results.filter (fun r => !r.1.toBool)).length
  let b := publishBatchMetrics ext successful failed
  (b.1, (results.map (fun r => r.2)).foldr (· ++ ·) Effects.empty ++ b.2)

/-! ## Store semantics, schedule, and derived observters -/

/-- Modelled from the spec: the persistent record store is "a key-value
store exposing a conditional insert that fails distinguishably if the
key exists" — the DynamoDB `ConditionExpression:
'attribute_not_exists(PK)'` put, which throws
`ConditionalCheckFailedException` when the key is present and succeeds
otherwise.  `table` is the set of already-written PKs. -/
def storePut (table : List String) : String → UserRecord → Except JsError Unit :=
  fun _ r =>
    if r.PK ∈ table then
      .error ⟨"ConditionalCheckFailedException", "The conditional request failed"⟩
    else .ok ()

/-- The enqueue delay used when scheduling the retry that follows the
n-th failed attempt of an envelope lineage: the first failed attempt is
the Entry Handler's, whose handoff hardcodes `DelaySeconds: 30`; the
n-th failed attempt for `n ≥ 2` is handled by `handleRetryFailure` on an
envelope with `attemptCount = n - 1`, so the re-enqueue uses
`retryDelaySeconds n`. -/
def scheduleDelay (n : Nat) : Nat :=
  if n = 1 then 30 else retryDelaySeconds n

/-- The retry-queue sends recorded in an effect log. -/
def Effects.retrySends (e : Effects) : List (String × RetryPayload × Nat) :=
  e.queueSends.filterMap fun s =>
    match s with
    | .retry u p d => some (u, p, d)
    | .manual _ _ => none

/-- The manual-intervention-queue sends recorded in an effect log. -/
def Effects.manualSends (e : Effects) : List (String × ManualPayload) :=
  e.queueSends.filterMap fun s =>
    match s with
    | .retry _ _ _ => none
    | .manual u p => some (u, p)

/-- Names of the metrics attempted in an effect log. -/
def Effects.metricNames (e : Effects) : List String :=
  e.metrics.map Metric.name

/-- Total manual-intervention sends across a list of effect logs. -/
def countManualSends (l : List Effects) : Nat :=
  (l.map fun e => e.manualSends.length).sum

/-- Total retry-queue sends across a list of effect logs. -/
def countRetrySends (l : List Effects) : Nat :=
  (l.map fun e => e.retrySends.length).sum

/-- The lineage of one envelope under the Retry Worker: process it,
and as long as the worker re-enqueues a successor envelope, continue
with the re-enqueued payload (the queue substrate redelivers it after
the delay).  `fuel` bounds the number of worker deliveries considered. -/
def lineage (env : RetryEnv) (ext : RetryExt) :
    Nat → RetryPayload → List Effects
  | 0, _ => []
  | fuel + 1, p =>
    let eff := (processRetryRecord env ext (some p)).2
    match eff.retrySends.head? with
    | some (_, q, _) => eff :: lineage env ext fuel q
    | none => [eff]

/-! ## Helper lemmas -/

theorem publishMetricE_eq (ctx : EntryCtx) (n : String) (v : Nat)
    (d : List (String × String)) :
    publishMetricE ctx n v d = (.ok (), ⟨[⟨n, v, d⟩], [], []⟩) := by
  unfold publishMetricE
  cases ctx.cw ⟨n, v, d⟩ <;> rfl

theorem publishMetricW_eq (ext : RetryExt) (n : String) (v : Nat)
    (d : List (String × String)) :
    publishMetricW ext n v d = (.ok (), ⟨[⟨n, v, d⟩], [], []⟩) := by
  unfold publishMetricW
  cases ext.cw [⟨n, v, d⟩] <;> rfl

theorem sendAdminAlert_eq (ext : RetryExt) (t s m : String) :
    sendAdminAlert ext t s m =
      (.ok (), ⟨[], [], [⟨"[Acorn Pups] " ++ s, m⟩]⟩) := by
  unfold sendAdminAlert
  cases ext.sns t ("[Acorn Pups] " ++ s) m <;> rfl

theorem publishBatchMetrics_eq (ext : RetryExt) (s f : Nat) :
    publishBatchMetrics ext s f =
      (.ok (), ⟨[⟨"RetryBatchSuccessful", s, []⟩, ⟨"RetryBatchFailed", f, []⟩], [], []⟩) := by
  unfold publishBatchMetrics
  cases h : ext.cw [⟨"RetryBatchSuccessful", s, []⟩, ⟨"RetryBatchFailed", f, []⟩] <;>
    simp [h]

theorem retrySends_append (a b : Effects) :
    (a ++ b).retrySends = a.retrySends ++ b.retrySends := by
  show (Effects.append a b).retrySends = _
  simp [Effects.append, Effects.retrySends, List.filterMap_append]

theorem manualSends_append (a b : Effects) :
    (a ++ b).manualSends = a.manualSends ++ b.manualSends := by
  show (Effects.append a b).manualSends = _
  simp [Effects.append, Effects.manualSends, List.filterMap_append]

theorem metricNames_append (a b : Effects) :
    (a ++ b).metricNames = a.metricNames ++ b.metricNames := by
  show (Effects.append a b).metricNames = _
  simp [Effects.append, Effects.metricNames]

theorem alerts_append (a b : Effects) :
    (a ++ b).alerts = a.alerts ++ b.alerts := rfl

theorem queueSends_append (a b : Effects) :
    (a ++ b).queueSends = a.queueSends ++ b.queueSends := rfl

/-- Re-enqueue step of `handleRetryFailure` (attempt budget not yet
exhausted): result fulfilled, exactly one retry-queue send carrying the
spread payload with incremented attempt count and new last error, no
manual-intervention send, and the retry-failure metric. -/
theorem handleRetryFailure_reenqueue_effects (env : RetryEnv) (ext : RetryExt)
    (p : RetryPayload) (e : JsError) (hb : p.attemptCount + 1 ≤ env.maxRetryAttempts) :
    (handleRetryFailure env ext (some p) e).1 = .ok () ∧
    (handleRetryFailure env ext (some p) e).2.retrySends =
      [(env.primaryRetryQueueUrl,
        { p with attemptCount := p.attemptCount + 1, lastError := some e.message },
        retryDelaySeconds (p.attemptCount + 1))] ∧
    (handleRetryFailure env ext (some p) e).2.manualSends = [] ∧
    (handleRetryFailure env ext (some p) e).2.metricNames = ["UserCreationRetryFailure"] := by
  simp only [handleRetryFailure, publishMetricW_eq, sendAdminAlert_eq, if_pos hb]
  split <;> exact ⟨rfl, rfl, rfl, rfl⟩

/-- Escalation step of `handleRetryFailure` (attempt budget exhausted):
result fulfilled, no retry-queue send, exactly one
manual-intervention-queue send carrying the spread payload tagged
`requiresManualIntervention := true` with the final-failure timestamp. -/
theorem handleRetryFailure_escalate_effects (env : RetryEnv) (ext : RetryExt)
    (p : RetryPayload) (e : JsError) (hb : ¬ p.attemptCount + 1 ≤ env.maxRetryAttempts) :
    (handleRetryFailure env ext (some p) e).1 = .ok () ∧
    (handleRetryFailure env ext (some p) e).2.retrySends = [] ∧
    (handleRetryFailure env ext (some p) e).2.manualSends =
      [(env.manualInterventionQueueUrl,
        ⟨p.userRecord, p.originalEvent, p.attemptCount, p.firstAttemptTimestamp,
         some e.message, ext.now, true⟩)] := by
  simp only [handleRetryFailure, publishMetricW_eq, sendAdminAlert_eq, if_neg hb]
  split <;> exact ⟨rfl, rfl, rfl⟩

/-- `handleRetryFailure` never rejects, whatever the body, error and
external outcomes. -/
theorem handleRetryFailure_fst_ok (env : RetryEnv) (ext : RetryExt)
    (body : Option RetryPayload) (e : JsError) :
    (handleRetryFailure env ext body e).1 = .ok () := by
  cases body with
  | none => simp [handleRetryFailure, sendAdminAlert_eq]
  | some p =>
    simp only [handleRetryFailure, publishMetricW_eq, sendAdminAlert_eq]
    split <;> split <;> rfl

/-- `processRetryRecord` never rejects, whatever the body and external
outcomes. -/
theorem processRetryRecord_fst_ok (env : RetryEnv) (ext : RetryExt)
    (body : Option RetryPayload) :
    (processRetryRecord env ext body).1 = .ok () := by
  cases body with
  | none => exact handleRetryFailure_fst_ok env ext none jsonParseError
  | some p =>
    simp only [processRetryRecord]
    cases hput : ext.put env.usersTableName p.userRecord with
    | ok _ =>
      simp only [publishMetricW_eq, sendAdminAlert_eq]
      split <;> rfl
    | error e => exact handleRetryFailure_fst_ok env ext (some p) e

/-- Success step of `processRetryRecord`: retry-success metric, no
queue sends, and the recovery alert exactly when `attemptCount > 1`. -/
theorem processRetryRecord_success_effects (env : RetryEnv) (ext : RetryExt)
    (p : RetryPayload) (hput : ext.put env.usersTableName p.userRecord = .ok ()) :
    (processRetryRecord env ext (some p)).1 = .ok () ∧
    (processRetryRecord env ext (some p)).2.metricNames = ["UserCreationRetrySuccess"] ∧
    (processRetryRecord env ext (some p)).2.queueSends = [] ∧
    (processRetryRecord env ext (some p)).2.alerts =
      (if p.attemptCount > 1 then
        [⟨"[Acorn Pups] User Creation Retry Success", recoveryAlertMessage p⟩]
       else []) := by
  simp only [processRetryRecord, hput, publishMetricW_eq, sendAdminAlert_eq]
  split <;> exact ⟨rfl, rfl, rfl, rfl⟩

/-- A thrown put in `processRetryRecord` delegates to
`handleRetryFailure` with the same parsed body. -/
theorem processRetryRecord_failure_delegates (env : RetryEnv) (ext : RetryExt)
    (p : RetryPayload) (e : JsError)
    (hput : ext.put env.usersTableName p.userRecord = .error e) :
    processRetryRecord env ext (some p) = handleRetryFailure env ext (some p) e := by
  simp [processRetryRecord, hput]

/-- `p ++ u = p ++ v` cancels on strings. -/
theorem string_append_left_cancel (p u v : String) (h : p ++ u = p ++ v) : u = v := by
  have hd : p.data ++ u.data = p.data ++ v.data := by
    have h2 := congrArg String.data h
    simpa [String.data_append] using h2
  have h3 : u.data = v.data := List.append_cancel_left hd
  exact String.ext h3

/-! ## Concrete fixtures for counterexamples and witnesses -/

def attrsA : UserAttributes := ⟨"a@x.com", none, none⟩

def ev0 : TriggerEvent :=
  ⟨⟨attrsA⟩, "sub-1", "PostConfirmation_ConfirmSignUp", "pool-1", "us-east-1"⟩

def r0 : UserRecord := buildUserRecord attrsA "sub-1" "0001" "2025-01-01T00:00:00.000Z"

def p0 : RetryPayload := ⟨r0, ev0, 1, "2025-01-01T00:00:00.000Z", none⟩

def p2 : RetryPayload := ⟨r0, ev0, 2, "2025-01-01T00:00:00.000Z", some "boom"⟩

def env0 : RetryEnv := ⟨"users-table", "manual-url", "topic-arn", 3, "retry-url"⟩

def eBoom : JsError := ⟨"ServiceUnavailable", "boom"⟩

def extOk : RetryExt :=
  ⟨fun _ _ => .ok (), fun _ => .ok (), fun _ => .ok (), fun _ _ _ => .ok (),
   "2025-01-01T01:00:00.000Z"⟩

def ext0 : RetryExt :=
  ⟨storePut ["USER#usr_0001"], fun _ => .ok (), fun _ => .ok (), fun _ _ _ => .ok (),
   "2025-01-01T01:00:00.000Z"⟩

def extFail : RetryExt :=
  ⟨fun _ _ => .error eBoom, fun _ => .ok (), fun _ => .ok (), fun _ _ _ => .ok (),
   "2025-01-01T01:00:00.000Z"⟩

/-! ## Claim theorems -/

/-- C1 (code evaluated at the failing input): a dequeued envelope whose
conditional insert hits an already-written key — `storePut` raises
`ConditionalCheckFailedException` because `p0.userRecord.PK` is already
in the table — is NOT treated as the terminal Succeeded outcome: the
worker emits the retry-failure metric (never the retry-success metric)
and re-enqueues the envelope for another retry, because the catch-all
in `processRetryRecord` routes every thrown error, including the
conditional-check failure, to `handleRetryFailure`. -/
theorem C1_already_exists_classified_retryable :
    (processRetryRecord env0 ext0 (some p0)).2.metricNames = ["UserCreationRetryFailure"] ∧
    (processRetryRecord env0 ext0 (some p0)).2.retrySends.length = 1 ∧
    "UserCreationRetrySuccess" ∉ (processRetryRecord env0 ext0 (some p0)).2.metricNames := by
  refine ⟨?_, ?_, ?_⟩ <;> decide

/-- C2 counterexample: two record constructions for the same identity
attributes (same email `a@x.com` and same subject `sub-1`) with
different generated random identifiers produce different unique keys —
the PK is not deterministic in the identity reference. -/
theorem C2_counterexample_key_not_identity_deterministic :
    (buildUserRecord attrsA "sub-1" "0001" "2025-01-01T00:00:00.000Z").PK ≠
    (buildUserRecord attrsA "sub-1" "0002" "2025-01-01T00:00:00.000Z").PK := by
  decide

/-- C2 amended: the record's unique key is determined by the generated
random identifier alone — it is independent of every identity attribute
(email, subject, name, phone and the captured timestamp), and distinct
identifiers always yield distinct keys.  Re-attempt safety therefore
rests on carrying the built record verbatim across retries together
with the store's conditional insert, not on key determinism. -/
theorem C2_amended_key_determined_by_uuid (a b : UserAttributes)
    (s1 s2 u v t1 t2 : String) (huv : u ≠ v) :
    (buildUserRecord a s1 u t1).PK = (buildUserRecord b s2 u t2).PK ∧
    (buildUserRecord a s1 u t1).PK ≠ (buildUserRecord b s2 v t2).PK := by
  constructor
  · rfl
  · intro hPK
    apply huv
    have h1 : ("USER#" : String) ++ ("usr_" ++ u) = ("USER#" : String) ++ ("usr_" ++ v) := hPK
    exact string_append_left_cancel _ _ _ (string_append_left_cancel _ _ _ h1)

theorem C2_amended_key_determined_by_uuid_witness :
    (buildUserRecord attrsA "sub-1" "0001" "t1").PK =
      (buildUserRecord ⟨"b@y.com", some "B", some "1"⟩ "sub-2" "0001" "t2").PK ∧
    (buildUserRecord attrsA "sub-1" "0001" "t1").PK ≠
      (buildUserRecord ⟨"b@y.com", some "B", some "1"⟩ "sub-2" "0002" "t2").PK :=
  C2_amended_key_determined_by_uuid attrsA ⟨"b@y.com", some "B", some "1"⟩
    "sub-1" "sub-2" "0001" "0002" "t1" "t2" (by decide)

/-- C3: for every input event and every behaviour of the external world
(users-table environment variable absent, DynamoDB put throwing,
retry-queue handoff throwing or unconfigured, metric sink throwing),
the Entry Handler returns the accept signal — the event object — and
never raises. -/
theorem C3_entry_handler_always_accepts (ctx : EntryCtx) (event : TriggerEvent) :
    (entryHandler ctx event).1 = .ok event := by
  unfold entryHandler
  split
  · rfl
  · rename_i t heq
    cases hput : ctx.put t
        (buildUserRecord event.request.userAttributes event.userName ctx.uuid ctx.now) <;>
      simp [hput]

/-- C6: on a successful Retry Worker attempt, exactly one recovery
admin alert is sent when the envelope's attempt count exceeds 1, and
none when it equals 1 (more precisely, when it does not exceed 1). -/
theorem C6_recovery_notification_iff_multiple_attempts (env : RetryEnv) (ext : RetryExt)
    (p : RetryPayload) (hput : ext.put env.usersTableName p.userRecord = .ok ()) :
    ((processRetryRecord env ext (some p)).2.alerts.filter
        (fun a => a.subject == "[Acorn Pups] User Creation Retry Success")).length =
      (if p.attemptCount > 1 then 1 else 0) := by
  rw [(processRetryRecord_success_effects env ext p hput).2.2.2]
  split <;> rfl

theorem C6_recovery_notification_iff_multiple_attempts_witness :
    ((processRetryRecord env0 extOk (some p2)).2.alerts.filter
        (fun a => a.subject == "[Acorn Pups] User Creation Retry Success")).length =
      (if p2.attemptCount > 1 then 1 else 0) :=
  C6_recovery_notification_iff_multiple_attempts env0 extOk p2 rfl

/-- C7: the envelope re-enqueued after a failed attempt differs from
the dequeued one only in the attempt count (incremented by one) and the
last error description; the carried record — including its key and its
creation/modification timestamps — the original event and the
first-attempt timestamp are carried verbatim. -/
theorem C7_reenqueue_frame (env : RetryEnv) (ext : RetryExt) (p : RetryPayload)
    (e : JsError) (hb : p.attemptCount + 1 ≤ env.maxRetryAttempts) :
    ∃ q, (handleRetryFailure env ext (some p) e).2.retrySends =
        [(env.primaryRetryQueueUrl, q, retryDelaySeconds (p.attemptCount + 1))] ∧
      q.userRecord = p.userRecord ∧
      q.userRecord.PK = p.userRecord.PK ∧
      q.userRecord.created_at = p.userRecord.created_at ∧
      q.userRecord.updated_at = p.userRecord.updated_at ∧
      q.originalEvent = p.originalEvent ∧
      q.firstAttemptTimestamp = p.firstAttemptTimestamp ∧
      q.attemptCount = p.attemptCount + 1 ∧
      q.lastError = some e.message :=
  ⟨_, (handleRetryFailure_reenqueue_effects env ext p e hb).2.1,
    rfl, rfl, rfl, rfl, rfl, rfl, rfl, rfl⟩

theorem C7_reenqueue_frame_witness :
    ∃ q, (handleRetryFailure env0 extOk (some p0) eBoom).2.retrySends =
        [(env0.primaryRetryQueueUrl, q, retryDelaySeconds (p0.attemptCount + 1))] ∧
      q.userRecord = p0.userRecord ∧
      q.userRecord.PK = p0.userRecord.PK ∧
      q.userRecord.created_at = p0.userRecord.created_at ∧
      q.userRecord.updated_at = p0.userRecord.updated_at ∧
      q.originalEvent = p0.originalEvent ∧
      q.firstAttemptTimestamp = p0.firstAttemptTimestamp ∧
      q.attemptCount = p0.attemptCount + 1 ∧
      q.lastError = some eBoom.message :=
  C7_reenqueue_frame env0 extOk p0 eBoom (by decide)

/-- C10: a dequeued message whose body is not valid JSON reaches the
critical-alert branch — the parse fails in `processRetryRecord` and
again in `handleRetryFailure`, whose catch sends the critical admin
alert — and nothing else happens: no metric, no retry re-enqueue and no
manual-intervention routing, and the handler still fulfills. -/
theorem C10_invalid_json_only_critical_alert (env : RetryEnv) (ext : RetryExt) :
    processRetryRecord env ext none =
      (.ok (), ⟨[], [],
        [⟨"[Acorn Pups] Critical: Retry Failure Handling Error",
          criticalAlertMessage jsonParseError jsonParseError⟩]⟩) := by
  simp [processRetryRecord, handleRetryFailure, sendAdminAlert_eq]

/-! ## Backoff schedule facts -/

theorem scheduleDelay_capped (n : Nat) (hn : 4 ≤ n) : scheduleDelay n = 300 := by
  have h16 : (16 : Nat) ≤ 2 ^ n := by
    calc (16 : Nat) = 2 ^ 4 := by norm_num
    _ ≤ 2 ^ n := Nat.pow_le_pow_right (by norm_num) hn
  have h30 : (300 : Nat) ≤ 2 ^ n * 30 := by nlinarith
  unfold scheduleDelay retryDelaySeconds
  rw [if_neg (by omega : ¬ n = 1), Nat.min_eq_left h30]

theorem scheduleDelay_mono (n : Nat) (hn : 1 ≤ n) :
    scheduleDelay n ≤ scheduleDelay (n + 1) := by
  rcases Nat.lt_or_ge n 2 with h | h
  · have hn1 : n = 1 := by omega
    subst hn1
    decide
  · unfold scheduleDelay retryDelaySeconds
    rw [if_neg (by omega : ¬ n = 1), if_neg (by omega : ¬ n + 1 = 1)]
    have hp : 2 ^ n * 30 ≤ 2 ^ (n + 1) * 30 :=
      Nat.mul_le_mul_right 30 (Nat.pow_le_pow_right (by norm_num) (Nat.le_succ n))
    exact min_le_min (le_refl 300) hp

/-- C5 counterexample: the retry scheduled after the 2nd failed attempt
(the worker fails an envelope with `attemptCount = 1`, so
`newAttemptCount = 2`) is enqueued with `min(300, 2^2·30) = 120`
seconds of delay, not the 60 seconds the claim states. -/
theorem C5_counterexample_second_delay_is_120 :
    ((handleRetryFailure env0 extOk (some p0) eBoom).2.retrySends.map
      (fun x => x.2.2)) = [120] ∧ (120 : Nat) ≠ 60 :=
  ⟨rfl, by decide⟩

/-- C5 amended: every worker re-enqueue uses
delay = min(maxDelay, base·2^attemptCount) with the attempt count of
the retry being scheduled (the code's `newAttemptCount`), and the entry
handoff hardcodes 30 s; so for base=30/cap=300 the schedule is
delay(1)=30, delay(2)=120, delay(3)=240 and delay(n)=300 for n ≥ 4 —
non-decreasing and capped, but not the claimed 30/60/120/300. -/
theorem C5_amended_backoff_schedule (env : RetryEnv) (ext : RetryExt)
    (p : RetryPayload) (e : JsError) (hp : 1 ≤ p.attemptCount)
    (hb : p.attemptCount + 1 ≤ env.maxRetryAttempts) :
    ((handleRetryFailure env ext (some p) e).2.retrySends.map (fun x => x.2.2)) =
      [scheduleDelay (p.attemptCount + 1)] ∧
    scheduleDelay 1 = 30 ∧ scheduleDelay 2 = 120 ∧
    scheduleDelay 3 = 240 ∧ (∀ n, 4 ≤ n → scheduleDelay n = 300) ∧
    (∀ n, 1 ≤ n → scheduleDelay n ≤ scheduleDelay (n + 1)) := by
  refine ⟨?_, by decide, by decide, by decide, scheduleDelay_capped, scheduleDelay_mono⟩
  rw [(handleRetryFailure_reenqueue_effects env ext p e hb).2.1]
  simp only [List.map]
  rw [scheduleDelay, if_neg (by omega : ¬ p.attemptCount + 1 = 1)]

/-- C5 witness: the amended schedule applied to a concrete envelope
with one recorded failure under the MaxAttempts=3 policy. -/
theorem C5_amended_backoff_schedule_witness :
    (1 ≤ p0.attemptCount ∧ p0.attemptCount + 1 ≤ env0.maxRetryAttempts) ∧
    ((handleRetryFailure env0 extOk (some p0) eBoom).2.retrySends.map (fun x => x.2.2)) =
      [scheduleDelay (p0.attemptCount + 1)] :=
  ⟨⟨by decide, by decide⟩,
   (C5_amended_backoff_schedule env0 extOk p0 eBoom (by decide) (by decide)).1⟩

/-! ## Entry-handler handoff (C8) -/

def ctxNoQueueUrl : EntryCtx :=
  ⟨some "users-table", none, "0001", "t0", "0002", "t1", "t2",
   fun _ _ => .ok (), fun _ _ _ => .ok (), fun _ => .ok ()⟩

def ctxSqsFails : EntryCtx :=
  ⟨some "users-table", some "retry-url", "0001", "t0", "0002", "t1", "t2",
   fun _ _ => .ok (), fun _ _ _ => .error eBoom, fun _ => .ok ()⟩

/-- C8 counterexample: when the retry-queue URL is unconfigured,
`sendToRetryQueue` emits no metric at all (it only logs and returns),
refuting the claim that every handoff failure — including the
unconfigured-URL case — emits the critical metric. -/
theorem C8_counterexample_unconfigured_url_emits_no_metric :
    (sendToRetryQueue ctxNoQueueUrl ev0 eBoom none).2.metrics = [] ∧
    (sendToRetryQueue ctxNoQueueUrl ev0 eBoom none).2 = Effects.empty :=
  ⟨rfl, rfl⟩

/-- C8 amended: the retry-queue handoff never raises and attempts the
enqueue at most once (no recursive retry of the scheduling); when the
queue URL is unconfigured it only logs — no metric, no send; when the
URL is configured and the enqueue operation itself throws, exactly one
enqueue is attempted and the critical
`UserCreationRetryQueueSendFailure` metric is emitted. -/
theorem C8_amended_handoff_failure_behaviour (ctx : EntryCtx) (ev : TriggerEvent)
    (e : JsError) (rec : Option UserRecord) :
    (sendToRetryQueue ctx ev e rec).1 = .ok () ∧
    (sendToRetryQueue ctx ev e rec).2.queueSends.length ≤ 1 ∧
    (ctx.primaryRetryQueueUrl = none →
      (sendToRetryQueue ctx ev e rec).2 = Effects.empty) ∧
    (∀ url err, ctx.primaryRetryQueueUrl = some url →
      (∀ u q d, ctx.sqsSend u q d = .error err) →
      (sendToRetryQueue ctx ev e rec).2.metricNames = ["UserCreationRetryQueueSendFailure"] ∧
      (sendToRetryQueue ctx ev e rec).2.queueSends.length = 1) := by
  unfold sendToRetryQueue
  cases hurl : ctx.primaryRetryQueueUrl with
  | none =>
    exact ⟨rfl, Nat.zero_le 1, fun _ => rfl, fun u err h => Option.noConfusion h⟩
  | some url =>
    cases rec with
    | some r =>
      cases hs : ctx.sqsSend url ⟨r, ev, 1, ctx.nowRetry, some e.message⟩ 30 with
      | ok v =>
        refine ⟨by simp [hs], by simp [hs, publishMetricE_eq, queueSends_append],
          fun h => Option.noConfusion h, ?_⟩
        intro u q h hAll
        rw [hAll] at hs
        simp at hs
      | error er =>
        refine ⟨by simp [hs], by simp [hs, publishMetricE_eq, queueSends_append],
          fun h => Option.noConfusion h, ?_⟩
        intro u q h hAll
        constructor
        · simp only [hs, publishMetricE_eq]
          rfl
        · simp only [hs, publishMetricE_eq]
          rfl
    | none =>
      cases hs : ctx.sqsSend url
          ⟨buildUserRecord ev.request.userAttributes ev.userName ctx.uuid2 ctx.now2,
           ev, 1, ctx.nowRetry, some e.message⟩ 30 with
      | ok v =>
        refine ⟨by simp [hs], by simp [hs, publishMetricE_eq, queueSends_append],
          fun h => Option.noConfusion h, ?_⟩
        intro u q h hAll
        rw [hAll] at hs
        simp at hs
      | error er =>
        refine ⟨by simp [hs], by simp [hs, publishMetricE_eq, queueSends_append],
          fun h => Option.noConfusion h, ?_⟩
        intro u q h hAll
        constructor
        · simp only [hs, publishMetricE_eq]
          rfl
        · simp only [hs, publishMetricE_eq]
          rfl

/-- C8 witness: a concrete context whose SQS send always throws —
the handoff fulfills, emits the critical metric, and attempts exactly
one enqueue. -/
theorem C8_amended_handoff_failure_behaviour_witness :
    (sendToRetryQueue ctxSqsFails ev0 eBoom none).1 = .ok () ∧
    (sendToRetryQueue ctxSqsFails ev0 eBoom none).2.metricNames =
      ["UserCreationRetryQueueSendFailure"] ∧
    (sendToRetryQueue ctxSqsFails ev0 eBoom none).2.queueSends.length = 1 :=
  ⟨(C8_amended_handoff_failure_behaviour ctxSqsFails ev0 eBoom none).1,
   ((C8_amended_handoff_failure_behaviour ctxSqsFails ev0 eBoom none).2.2.2
      "retry-url" eBoom rfl (fun _ _ _ => rfl)).1,
   ((C8_amended_handoff_failure_behaviour ctxSqsFails ev0 eBoom none).2.2.2
      "retry-url" eBoom rfl (fun _ _ _ => rfl)).2⟩

/-- C9: for every batch and every behaviour of the external world, the
Retry Worker handler fulfills; every individual envelope handler
fulfills (all errors are caught); and the handler's effects decompose
as the independent per-envelope effect logs — each a function of that
envelope alone — followed by the batch metrics, which (because no
per-envelope promise ever rejects) always report
`RetryBatchSuccessful = batch size` and `RetryBatchFailed = 0`: a
failure on one envelope never aborts its siblings nor the batch. -/
theorem C9_worker_batch_always_fulfills_and_isolates (env : RetryEnv) (ext : RetryExt)
    (records : List (Option RetryPayload)) :
    (retryHandler env ext records).1 = .ok () ∧
    (∀ body, (processRetryRecord env ext body).1 = .ok ()) ∧
    (retryHandler env ext records).2 =
      (records.map (fun b => (processRetryRecord env ext b).2)).foldr (· ++ ·) Effects.empty ++
        ⟨[⟨"RetryBatchSuccessful", records.length, []⟩, ⟨"RetryBatchFailed", 0, []⟩], [], []⟩ := by
  have hall : ∀ r ∈ records.map (processRetryRecord env ext), r.1.toBool = true := by
    intro r hr
    rcases List.mem_map.mp hr with ⟨b, hb, hfb⟩
    rw [← hfb, processRetryRecord_fst_ok]
    rfl
  have h1 : (records.map (processRetryRecord env ext)).filter (fun r => r.1.toBool) =
      records.map (processRetryRecord env ext) :=
    List.filter_eq_self.mpr hall
  have h2 : (records.map (processRetryRecord env ext)).filter (fun r => !r.1.toBool) = [] := by
    rw [List.filter_eq_nil_iff]
    intro r hr
    simp [hall r hr]
  refine ⟨?_, fun body => processRetryRecord_fst_ok env ext body, ?_⟩
  · unfold retryHandler
    simp only [publishBatchMetrics_eq]
  · unfold retryHandler
    simp only [h1, h2, publishBatchMetrics_eq, List.length_map, List.map_map]
    rfl

/-! ## Bounded-retry escalation (C4) -/

/-- For an always-failing store, an envelope with `k` worker deliveries
left in its budget (its attempt count plus `k` equals MaxAttempts + 1)
is re-enqueued on the first `k - 1` deliveries — each recording exactly
one retry send whose attempt count stays within MaxAttempts and no
manual-intervention send — and on the final delivery records no retry
send and exactly one manual-intervention send whose payload carries
`requiresManualIntervention = true`, the final-failure timestamp and
attempt count MaxAttempts. -/
theorem lineage_escalates (env : RetryEnv) (ext : RetryExt) (eF : JsError)
    (hput : ∀ t r, ext.put t r = .error eF) :
    ∀ k p, 1 ≤ p.attemptCount → p.attemptCount ≤ env.maxRetryAttempts →
      p.attemptCount + k = env.maxRetryAttempts + 1 →
      ∃ pre lastE, lineage env ext k p = pre ++ [lastE] ∧
        pre.length = k - 1 ∧
        (∀ e2 ∈ pre, e2.manualSends = [] ∧
          ∃ x, e2.retrySends = [x] ∧ x.2.1.attemptCount ≤ env.maxRetryAttempts) ∧
        lastE.retrySends = [] ∧
        ∃ mp, lastE.manualSends = [(env.manualInterventionQueueUrl, mp)] ∧
          mp.requiresManualIntervention = true ∧
          mp.finalFailureTimestamp = ext.now ∧
          mp.attemptCount = env.maxRetryAttempts := by
  intro k
  induction k with
  | zero => intro p h1 h2 h3; omega
  | succ k ih =>
    intro p h1 h2 h3
    have hdel := processRetryRecord_failure_delegates env ext p eF (hput _ _)
    by_cases hb : p.attemptCount + 1 ≤ env.maxRetryAttempts
    · obtain ⟨-, hr, hm, -⟩ := handleRetryFailure_reenqueue_effects env ext p eF hb
      have hEff : (processRetryRecord env ext (some p)).2.retrySends =
          [(env.primaryRetryQueueUrl,
            { p with attemptCount := p.attemptCount + 1, lastError := some eF.message },
            retryDelaySeconds (p.attemptCount + 1))] := by
        rw [hdel]; exact hr
      have hManual : (processRetryRecord env ext (some p)).2.manualSends = [] := by
        rw [hdel]; exact hm
      have hstep : lineage env ext (k + 1) p =
          (processRetryRecord env ext (some p)).2 ::
            lineage env ext k
              { p with attemptCount := p.attemptCount + 1, lastError := some eF.message } := by
        rw [lineage, hEff]
        rfl
      obtain ⟨pre, lastE, hEq, hLen, hPre, hLast, mp, hmp⟩ :=
        ih { p with attemptCount := p.attemptCount + 1, lastError := some eF.message }
          (by simp) (by simpa using hb) (by simpa using by omega)
      refine ⟨(processRetryRecord env ext (some p)).2 :: pre, lastE, ?_, ?_, ?_, hLast, mp, hmp⟩
      · rw [hstep, hEq]; rfl
      · simp [hLen]; omega
      · intro e2 he2
        rcases List.mem_cons.mp he2 with he2 | he2
        · subst he2
          exact ⟨hManual, ⟨_, hEff, by simpa using hb⟩⟩
        · exact hPre e2 he2
    · have ha : p.attemptCount = env.maxRetryAttempts := by omega
      obtain ⟨-, hr, hm⟩ := handleRetryFailure_escalate_effects env ext p eF hb
      have hEff : (processRetryRecord env ext (some p)).2.retrySends = [] := by
        rw [hdel]; exact hr
      have hManual : (processRetryRecord env ext (some p)).2.manualSends =
          [(env.manualInterventionQueueUrl,
            ⟨p.userRecord, p.originalEvent, p.attemptCount, p.firstAttemptTimestamp,
             some eF.message, ext.now, true⟩)] := by
        rw [hdel]; exact hm
      have hstep : lineage env ext (k + 1) p = [(processRetryRecord env ext (some p)).2] := by
        rw [lineage, hEff]
        rfl
      refine ⟨[], (processRetryRecord env ext (some p)).2, by simpa using hstep, by simp; omega,
        by simp, hEff, ⟨p.userRecord, p.originalEvent, p.attemptCount, p.firstAttemptTimestamp,
          some eF.message, ext.now, true⟩, hManual, rfl, rfl, ha⟩

/-- C4: an envelope whose conditional insert fails on every attempt is
escalated exactly once after exactly MaxAttempts failed worker attempts
(its attempt count runs 1..MaxAttempts): the lineage is MaxAttempts
deliveries long, the first MaxAttempts − 1 each schedule exactly one
further retry whose attempt count never exceeds MaxAttempts — so a
(MaxAttempts+1)th retry attempt is never scheduled — and only the final
delivery routes the envelope, exactly once, to the manual-intervention
queue with `requiresManualIntervention = true` and a final-failure
timestamp. -/
theorem C4_bounded_retries_escalate_once (env : RetryEnv) (ext : RetryExt)
    (eF : JsError) (p : RetryPayload) (hput : ∀ t r, ext.put t r = .error eF)
    (hstart : p.attemptCount = 1) (hM : 1 ≤ env.maxRetryAttempts) :
    ∃ pre lastE, lineage env ext env.maxRetryAttempts p = pre ++ [lastE] ∧
      pre.length = env.maxRetryAttempts - 1 ∧
      (∀ e2 ∈ pre, e2.manualSends = [] ∧
        ∃ x, e2.retrySends = [x] ∧ x.2.1.attemptCount ≤ env.maxRetryAttempts) ∧
      lastE.retrySends = [] ∧
      ∃ mp, lastE.manualSends = [(env.manualInterventionQueueUrl, mp)] ∧
        mp.requiresManualIntervention = true ∧
        mp.finalFailureTimestamp = ext.now ∧
        mp.attemptCount = env.maxRetryAttempts :=
  lineage_escalates env ext eF hput env.maxRetryAttempts p (by omega) (by omega) (by omega)

/-- C4 witness: the always-failing store with the MaxAttempts=3 policy
on a concrete first-attempt envelope. -/
theorem C4_bounded_retries_escalate_once_witness :
    ((∀ t r, extFail.put t r = .error eBoom) ∧ p0.attemptCount = 1 ∧
      1 ≤ env0.maxRetryAttempts) ∧
    ∃ pre lastE, lineage env0 extFail env0.maxRetryAttempts p0 = pre ++ [lastE] ∧
      pre.length = env0.maxRetryAttempts - 1 ∧
      (∀ e2 ∈ pre, e2.manualSends = [] ∧
        ∃ x, e2.retrySends = [x] ∧ x.2.1.attemptCount ≤ env0.maxRetryAttempts) ∧
      lastE.retrySends = [] ∧
      ∃ mp, lastE.manualSends = [(env0.manualInterventionQueueUrl, mp)] ∧
        mp.requiresManualIntervention = true ∧
        mp.finalFailureTimestamp = extFail.now ∧
        mp.attemptCount = env0.maxRetryAttempts :=
  ⟨⟨fun _ _ => rfl, rfl, by decide⟩,
   C4_bounded_retries_escalate_once env0 extFail eBoom p0 (fun _ _ => rfl) rfl (by decide)⟩
